import Mathlib

/-
Verification of the client-side job lifecycle tracking subsystem:
the normalized entity store helpers and the job reducer from
src/client/src/job/reducers.ts. Entity ids are strings; result artifacts
and dataset references are opaque to the subsystem and are represented by
natural numbers and strings respectively; timestamps are natural numbers.
-/

/-- Coarse lifecycle phase of a job (enum JobRunning in the source). -/
inductive JobRunning where
  | CREATING
  | RUNNING
  | DONE
deriving DecidableEq

/-- Fine-grained job status (enum JobStatus in the source). -/
inductive JobStatus where
  | CREATING
  | IN_PROGRESS
  | SUCCESS
  | ERROR
deriving DecidableEq

/-- A job entity (JobState in the source). The endTimestamp field may be
undefined in the source, hence an Option here. -/
structure JobState where
  id : String
  dataset : String
  running : JobRunning
  status : JobStatus
  results : List Nat
  startTimestamp : Nat
  endTimestamp : Option Nat
deriving DecidableEq

/-- Normalized entity store (type ById of the reducer helpers): byId maps
ids to entities, modelled as an association list where the first binding
for an id wins; ids is the ordered sequence of keys. -/
structure ById (α : Type) where
  byId : List (String × α)
  ids : List String
deriving DecidableEq

/-- Read an entity out of byId, treating the association list as a finite
map (first binding for the id wins). -/
def getById (s : ById α) (i : String) : Option α :=
  (s.byId.find? (fun p => p.1 == i)).map Prod.snd

/-- Modelled from the spec: insertById of the reducer helpers module, whose
source file is not part of the excerpt. If the id is already present the
state is returned unchanged (silent no-op, no overwrite); otherwise the id
is appended to ids and the entity is bound in byId. -/
def insertById (s : ById α) (i : String) (e : α) : ById α :=
  match s.byId.find? (fun p => p.1 == i) with
  | some _ => s
  | none => { byId := s.byId ++ [(i, e)], ids := s.ids ++ [i] }

/-- Modelled from the spec: updateById of the reducer helpers module, whose
source file is not part of the excerpt. If the id is absent the state is
returned unchanged (silent no-op); otherwise the stored entity is replaced
by a copy with the given fields overwritten (the shallow merge is passed as
a function on entities), at the same position in ids. -/
def updateById (s : ById α) (i : String) (f : α → α) : ById α :=
  match s.byId.find? (fun p => p.1 == i) with
  | some _ =>
      { byId := s.byId.map (fun p => if p.1 == i then (p.1, f p.2) else p),
        ids := s.ids }
  | none => s

/-- The actions recognized by the job reducer (the relevant part of the
AllActions union). OTHER stands for every unrecognized action, which falls
through to the default return of the switch. -/
inductive AllActions where
  | CREATE (id : String) (dataset : String) (timestamp : Nat)
  | JOB_STARTED (job : String) (timestamp : Nat)
  | TASK_RESULT (job : String) (results : List Nat)
  | FINISH_JOB (job : String) (timestamp : Nat) (results : List Nat)
  | JOB_ERROR (job : String) (timestamp : Nat)
  | OTHER
deriving DecidableEq

/-- The state of the job reducer (JobReducerState in the source). -/
abbrev JobReducerState := ById JobState

/-- The initial empty store (initialJobState in reducers.ts). -/
def initialJobState : JobReducerState := { byId := [], ids := [] }

/-- The job reducer of src/client/src/job/reducers.ts, with the state
argument already supplied; the ES default parameter is modelled separately
by jobReducerDefault. -/
def jobReducer (state : JobReducerState) (action : AllActions) : JobReducerState :=
  match action with
  | .CREATE id dataset timestamp =>
      insertById state id
        { id := id, dataset := dataset, running := JobRunning.CREATING,
          status := JobStatus.CREATING, results := [],
          startTimestamp := timestamp, endTimestamp := none }
  | .JOB_STARTED job timestamp =>
      updateById state job (fun j =>
        { j with running := JobRunning.RUNNING,
                 status := JobStatus.IN_PROGRESS,
                 startTimestamp := timestamp })
  | .TASK_RESULT job results =>
      updateById state job (fun j => { j with results := results })
  | .FINISH_JOB job timestamp results =>
      updateById state job (fun j =>
        { j with running := JobRunning.DONE,
                 status := JobStatus.SUCCESS,
                 results := results,
                 endTimestamp := some timestamp })
  | .JOB_ERROR job timestamp =>
      updateById state job (fun j =>
        { j with running := JobRunning.DONE,
                 status := JobStatus.ERROR,
                 endTimestamp := some timestamp })
  | .OTHER => state

/-- The reducer as exported, with the default parameter state = initialJobState:
invoked without a prior state (none), it reduces from the initial empty store. -/
def jobReducerDefault (state : Option JobReducerState) (action : AllActions) :
    JobReducerState :=
  jobReducer (state.getD initialJobState) action

/-- Sequential application of a list of events by the external dispatcher. -/
def applyEvents (s : JobReducerState) (events : List AllActions) : JobReducerState :=
  events.foldl jobReducer s

/-- Whether an action is a terminal event (FINISH_JOB or JOB_ERROR) for the
job with the given id. -/
def isTerminalFor (i : String) : AllActions → Bool
  | .FINISH_JOB j _ _ => j == i
  | .JOB_ERROR j _ => j == i
  | _ => false

/-- Whether an action names the given id, either as the id of a CREATE or
as the job field of a lifecycle event. -/
def namesId (i : String) : AllActions → Bool
  | .CREATE id _ _ => id == i
  | .JOB_STARTED j _ => j == i
  | .TASK_RESULT j _ => j == i
  | .FINISH_JOB j _ _ => j == i
  | .JOB_ERROR j _ => j == i
  | .OTHER => false

/-- A per-entity property holding for every job stored in the state. -/
def StoreInv (P : JobState → Prop) (s : JobReducerState) : Prop :=
  ∀ i e, getById s i = some e → P e

/-- The per-entity property that a finished running phase comes with a
defined end timestamp. -/
def DoneHasEnd (e : JobState) : Prop :=
  e.running = JobRunning.DONE → e.endTimestamp.isSome = true

/-- The four consistent combinations of the running and status fields. -/
def consistentPairs : List (JobRunning × JobStatus) :=
  [(JobRunning.CREATING, JobStatus.CREATING),
   (JobRunning.RUNNING, JobStatus.IN_PROGRESS),
   (JobRunning.DONE, JobStatus.SUCCESS),
   (JobRunning.DONE, JobStatus.ERROR)]

/-- The per-entity property that the running and status fields form one of
the four consistent combinations. -/
def PairConsistent (e : JobState) : Prop :=
  (e.running, e.status) ∈ consistentPairs

/-! Store-level lemmas. -/

theorem find?_eq_none_of_getById_none {s : ById α} {i : String}
    (h : getById s i = none) : s.byId.find? (fun p => p.1 == i) = none := by
  unfold getById at h
  cases hf : s.byId.find? (fun p => p.1 == i) with
  | none => rfl
  | some q => rw [hf] at h; cases h

theorem insertById_of_present {s : ById α} {i : String} {e : α} (x : α)
    (h : getById s i = some e) : insertById s i x = s := by
  unfold getById at h
  cases hf : s.byId.find? (fun p => p.1 == i) with
  | none => rw [hf] at h; cases h
  | some q => unfold insertById; rw [hf]

theorem insertById_of_absent {s : ById α} {i : String} (x : α)
    (h : getById s i = none) :
    insertById s i x = { byId := s.byId ++ [(i, x)], ids := s.ids ++ [i] } := by
  unfold insertById
  rw [find?_eq_none_of_getById_none h]

theorem getById_insertById_absent {s : ById α} {i : String} (x : α)
    (h : getById s i = none) : getById (insertById s i x) i = some x := by
  rw [insertById_of_absent x h]
  unfold getById
  simp [List.find?_append, find?_eq_none_of_getById_none h, List.find?]

theorem getById_insertById_ne {s : ById α} {i : String} (x : α) {i' : String}
    (h : i' ≠ i) : getById (insertById s i x) i' = getById s i' := by
  unfold insertById
  cases hf : s.byId.find? (fun p => p.1 == i) with
  | some q => rfl
  | none =>
    unfold getById
    have hne : (i == i') = false := beq_eq_false_iff_ne.mpr (Ne.symm h)
    simp [List.find?_append, List.find?, hne]

theorem updateById_of_absent {s : ById α} {i : String} (f : α → α)
    (h : getById s i = none) : updateById s i f = s := by
  unfold updateById
  rw [find?_eq_none_of_getById_none h]

theorem updateById_map_pred (g : α → α) (i i' : String) :
    ((fun p : String × α => p.1 == i') ∘
      (fun p : String × α => if p.1 == i then (p.1, g p.2) else p))
    = fun p : String × α => p.1 == i' := by
  funext p
  by_cases hp : (p.1 == i) = true
  · simp [eq_of_beq hp]
  · simp at hp
    simp [hp]

theorem getById_updateById_self {s : ById α} {i : String} {e : α} (f : α → α)
    (h : getById s i = some e) : getById (updateById s i f) i = some (f e) := by
  unfold getById at h
  cases hf : s.byId.find? (fun p => p.1 == i) with
  | none => rw [hf] at h; cases h
  | some q =>
    rw [hf] at h
    have hq2 : q.2 = e := by cases h; rfl
    have hq1 : (q.1 == i) = true := by
      have h1 := List.find?_some hf
      exact h1
    unfold updateById
    rw [hf]
    unfold getById
    simp only [List.find?_map, updateById_map_pred, hf, Option.map_map, Option.map_some]
    simp [hq1, hq2, eq_of_beq hq1]

theorem getById_updateById_ne {s : ById α} {i : String} (f : α → α) {i' : String}
    (h : i' ≠ i) : getById (updateById s i f) i' = getById s i' := by
  unfold updateById
  cases hf : s.byId.find? (fun p => p.1 == i) with
  | none => rfl
  | some q =>
    unfold getById
    simp only [List.find?_map, updateById_map_pred, Option.map_map]
    cases hf' : s.byId.find? (fun p => p.1 == i') with
    | none => rfl
    | some r =>
      have hr : (r.1 == i') = true := by
        have h1 := List.find?_some hf'
        exact h1
      have hri : (r.1 == i) = false := by
        have : r.1 = i' := eq_of_beq hr
        exact beq_eq_false_iff_ne.mpr (by rw [this]; exact h)
      have hne : r.1 ≠ i := by simpa using hri
      simp [Function.comp, hne]

theorem updateById_ids (s : ById α) (i : String) (f : α → α) :
    (updateById s i f).ids = s.ids := by
  unfold updateById
  cases hf : s.byId.find? (fun p => p.1 == i) <;> rfl

/-! Invariant machinery over the store. -/

theorem storeInv_insertById {P : JobState → Prop} {s : JobReducerState}
    {i : String} {x : JobState} (h : StoreInv P s) (hx : P x) :
    StoreInv P (insertById s i x) := by
  intro i' e' he'
  cases hpre : getById s i with
  | some q => rw [insertById_of_present x hpre] at he'; exact h _ _ he'
  | none =>
    by_cases hi : i' = i
    · subst hi
      rw [getById_insertById_absent x hpre] at he'
      cases he'
      exact hx
    · rw [getById_insertById_ne x hi] at he'
      exact h _ _ he'

theorem storeInv_updateById {P : JobState → Prop} {s : JobReducerState}
    {i : String} {f : JobState → JobState} (h : StoreInv P s)
    (hf : ∀ e, P e → P (f e)) : StoreInv P (updateById s i f) := by
  intro i' e' he'
  by_cases hi : i' = i
  · subst hi
    cases hpre : getById s i' with
    | none => rw [updateById_of_absent f hpre] at he'; exact h _ _ he'
    | some q =>
      rw [getById_updateById_self f hpre] at he'
      cases he'
      exact hf q (h _ _ hpre)
  · rw [getById_updateById_ne f hi] at he'
    exact h _ _ he'

theorem applyEvents_cons (s : JobReducerState) (a : AllActions)
    (rest : List AllActions) :
    applyEvents s (a :: rest) = applyEvents (jobReducer s a) rest := rfl

theorem storeInv_applyEvents {P : JobState → Prop}
    (hstep : ∀ s a, StoreInv P s → StoreInv P (jobReducer s a)) :
    ∀ (events : List AllActions) (s : JobReducerState),
      StoreInv P s → StoreInv P (applyEvents s events) := by
  intro events
  induction events with
  | nil => intro s h; exact h
  | cons a rest ih =>
    intro s h
    rw [applyEvents_cons]
    exact ih _ (hstep s a h)

theorem storeInv_initial (P : JobState → Prop) : StoreInv P initialJobState := by
  intro i e he
  cases he

/-! Per-claim invariant step lemmas. -/

theorem doneHasEnd_step (s : JobReducerState) (a : AllActions)
    (h : StoreInv DoneHasEnd s) : StoreInv DoneHasEnd (jobReducer s a) := by
  cases a with
  | CREATE id d t => exact storeInv_insertById h (by intro hh; cases hh)
  | JOB_STARTED j t => exact storeInv_updateById h (fun e _ => by intro hh; cases hh)
  | TASK_RESULT j rs => exact storeInv_updateById h (fun e he => he)
  | FINISH_JOB j t rs => exact storeInv_updateById h (fun e _ _ => rfl)
  | JOB_ERROR j t => exact storeInv_updateById h (fun e _ _ => rfl)
  | OTHER => exact h

theorem pairConsistent_step (s : JobReducerState) (a : AllActions)
    (h : StoreInv PairConsistent s) : StoreInv PairConsistent (jobReducer s a) := by
  cases a with
  | CREATE id d t =>
    refine storeInv_insertById h ?_
    show (JobRunning.CREATING, JobStatus.CREATING) ∈ consistentPairs
    decide
  | JOB_STARTED j t =>
    refine storeInv_updateById h (fun e _ => ?_)
    show (JobRunning.RUNNING, JobStatus.IN_PROGRESS) ∈ consistentPairs
    decide
  | TASK_RESULT j rs => exact storeInv_updateById h (fun e he => he)
  | FINISH_JOB j t rs =>
    refine storeInv_updateById h (fun e _ => ?_)
    show (JobRunning.DONE, JobStatus.SUCCESS) ∈ consistentPairs
    decide
  | JOB_ERROR j t =>
    refine storeInv_updateById h (fun e _ => ?_)
    show (JobRunning.DONE, JobStatus.ERROR) ∈ consistentPairs
    decide
  | OTHER => exact h

/-! Claim C1. -/

/-- C1, counterexample: the claimed two-way invariant (endTimestamp is
defined if and only if running equals DONE) fails on a reachable state. The
sequence CREATE, JOB_ERROR, JOB_STARTED leaves the job with running equal
to RUNNING while endTimestamp is still the one set by JOB_ERROR, because
the JOB_STARTED update does not clear the endTimestamp field. -/
theorem c1_iff_counterexample :
    ¬ (∀ (events : List AllActions) (i : String) (e : JobState),
        getById (applyEvents initialJobState events) i = some e →
        (e.endTimestamp.isSome = true ↔ e.running = JobRunning.DONE)) := by
  intro hclaim
  have h2 := hclaim
      [AllActions.CREATE "j1" "d1" 100, AllActions.JOB_ERROR "j1" 150,
       AllActions.JOB_STARTED "j1" 160] "j1"
      { id := "j1", dataset := "d1", running := JobRunning.RUNNING,
        status := JobStatus.IN_PROGRESS, results := [],
        startTimestamp := 160, endTimestamp := some 150 } (by decide)
  exact absurd (h2.mp rfl) (by decide)

/-- C1, amended: in every state reachable from the initial empty store by
any sequence of recognized events, every stored job with running equal to
DONE has a defined endTimestamp (the converse direction of the original
claim does not hold). -/
theorem c1_done_has_endTimestamp (events : List AllActions) (i : String)
    (e : JobState)
    (h : getById (applyEvents initialJobState events) i = some e)
    (hd : e.running = JobRunning.DONE) : e.endTimestamp.isSome = true :=
  storeInv_applyEvents doneHasEnd_step events initialJobState
    (storeInv_initial DoneHasEnd) i e h hd

/-- Witness for c1_done_has_endTimestamp at a concrete reachable state. -/
theorem c1_done_has_endTimestamp_witness :
    ({ id := "j1", dataset := "d1", running := JobRunning.DONE,
       status := JobStatus.ERROR, results := [], startTimestamp := 100,
       endTimestamp := some 150 } : JobState).endTimestamp.isSome = true :=
  c1_done_has_endTimestamp
    [AllActions.CREATE "j1" "d1" 100, AllActions.JOB_ERROR "j1" 150] "j1"
    { id := "j1", dataset := "d1", running := JobRunning.DONE,
      status := JobStatus.ERROR, results := [], startTimestamp := 100,
      endTimestamp := some 150 } (by decide) (by decide)

/-! Claim C2. -/

/-- C2: in every state reachable from the initial empty store by any
sequence of recognized events, every stored job has a (running, status)
pair among (CREATING, CREATING), (RUNNING, IN_PROGRESS), (DONE, SUCCESS),
(DONE, ERROR). -/
theorem c2_running_status_consistent (events : List AllActions) (i : String)
    (e : JobState)
    (h : getById (applyEvents initialJobState events) i = some e) :
    (e.running, e.status) ∈ consistentPairs :=
  storeInv_applyEvents pairConsistent_step events initialJobState
    (storeInv_initial PairConsistent) i e h

/-- Witness for c2_running_status_consistent at a concrete reachable state. -/
theorem c2_running_status_consistent_witness :
    ((JobRunning.RUNNING, JobStatus.IN_PROGRESS) :
      JobRunning × JobStatus) ∈ consistentPairs :=
  c2_running_status_consistent
    [AllActions.CREATE "j1" "d1" 100, AllActions.JOB_STARTED "j1" 105] "j1"
    { id := "j1", dataset := "d1", running := JobRunning.RUNNING,
      status := JobStatus.IN_PROGRESS, results := [], startTimestamp := 105,
      endTimestamp := none } (by decide)

/-! Claim C3. -/

/-- C3: when the state contains a job with id j, TASK_RESULT replaces the
results field of that job wholesale with the event payload, leaving every
other field (in particular running and status) unchanged; two successive
TASK_RESULT events leave the results equal to the second payload. -/
theorem c3_task_result_replaces (s : JobReducerState) (j : String)
    (e : JobState) (rs rs2 : List Nat) (h : getById s j = some e) :
    getById (jobReducer s (AllActions.TASK_RESULT j rs)) j
      = some { e with results := rs }
    ∧ getById (jobReducer (jobReducer s (AllActions.TASK_RESULT j rs))
        (AllActions.TASK_RESULT j rs2)) j = some { e with results := rs2 } := by
  have h1 : getById (jobReducer s (AllActions.TASK_RESULT j rs)) j
      = some { e with results := rs } := getById_updateById_self _ h
  have h2 : getById (jobReducer (jobReducer s (AllActions.TASK_RESULT j rs))
      (AllActions.TASK_RESULT j rs2)) j
      = some { { e with results := rs } with results := rs2 } :=
    getById_updateById_self _ h1
  exact ⟨h1, h2⟩

/-- Witness for c3_task_result_replaces: scenario C of the spec, with the
job created and started first, then two TASK_RESULT events. -/
theorem c3_task_result_replaces_witness :
    getById (jobReducer (applyEvents initialJobState
        [AllActions.CREATE "j1" "d1" 100, AllActions.JOB_STARTED "j1" 105])
        (AllActions.TASK_RESULT "j1" [1])) "j1"
      = some { id := "j1", dataset := "d1", running := JobRunning.RUNNING,
               status := JobStatus.IN_PROGRESS, results := [1],
               startTimestamp := 105, endTimestamp := none }
    ∧ getById (jobReducer (jobReducer (applyEvents initialJobState
        [AllActions.CREATE "j1" "d1" 100, AllActions.JOB_STARTED "j1" 105])
        (AllActions.TASK_RESULT "j1" [1])) (AllActions.TASK_RESULT "j1" [1, 2])) "j1"
      = some { id := "j1", dataset := "d1", running := JobRunning.RUNNING,
               status := JobStatus.IN_PROGRESS, results := [1, 2],
               startTimestamp := 105, endTimestamp := none } :=
  c3_task_result_replaces
    (applyEvents initialJobState
      [AllActions.CREATE "j1" "d1" 100, AllActions.JOB_STARTED "j1" 105])
    "j1"
    { id := "j1", dataset := "d1", running := JobRunning.RUNNING,
      status := JobStatus.IN_PROGRESS, results := [], startTimestamp := 105,
      endTimestamp := none } [1] [1, 2] (by decide)

/-! Claim C4. -/

/-- C4: applying CREATE twice with the same id (and any payloads) to any
state yields the same state as applying only the first CREATE; moreover,
when the id is already present, a CREATE for it is a silent no-op returning
the state itself (the original entity is retained and ids is untouched). -/
theorem c4_create_idempotent (s : JobReducerState) (i d1 : String) (t1 : Nat)
    (d2 : String) (t2 : Nat) :
    jobReducer (jobReducer s (AllActions.CREATE i d1 t1))
        (AllActions.CREATE i d2 t2)
      = jobReducer s (AllActions.CREATE i d1 t1)
    ∧ (∀ e, getById s i = some e → jobReducer s (AllActions.CREATE i d2 t2) = s) := by
  constructor
  · show insertById (jobReducer s (AllActions.CREATE i d1 t1)) i _ = _
    cases hpre : getById s i with
    | some q =>
      have h1 : jobReducer s (AllActions.CREATE i d1 t1) = s :=
        insertById_of_present _ hpre
      rw [h1]
      exact insertById_of_present _ hpre
    | none =>
      exact insertById_of_present _ (getById_insertById_absent _ hpre)
  · intro e he
    exact insertById_of_present _ he

/-- Witness for c4_create_idempotent: the hypothesis of the second
conjunct discharged on a concrete state already holding the id. -/
theorem c4_create_idempotent_witness :
    jobReducer (jobReducer initialJobState (AllActions.CREATE "j1" "d1" 100))
        (AllActions.CREATE "j1" "d2" 200)
      = jobReducer initialJobState (AllActions.CREATE "j1" "d1" 100) :=
  (c4_create_idempotent
      (jobReducer initialJobState (AllActions.CREATE "j1" "d1" 100))
      "j1" "d1" 100 "d2" 200).2
    { id := "j1", dataset := "d1", running := JobRunning.CREATING,
      status := JobStatus.CREATING, results := [], startTimestamp := 100,
      endTimestamp := none } (by decide)

/-! Claim C5. -/

/-- C5: every lifecycle event (JOB_STARTED, TASK_RESULT, FINISH_JOB,
JOB_ERROR) whose job id is absent from byId leaves the state equal to the
input: no job is materialized and nothing changes. -/
theorem c5_unknown_id_noop (s : JobReducerState) (j : String)
    (h : getById s j = none) :
    (∀ t, jobReducer s (AllActions.JOB_STARTED j t) = s)
    ∧ (∀ rs, jobReducer s (AllActions.TASK_RESULT j rs) = s)
    ∧ (∀ t rs, jobReducer s (AllActions.FINISH_JOB j t rs) = s)
    ∧ (∀ t, jobReducer s (AllActions.JOB_ERROR j t) = s) := by
  refine ⟨fun t => ?_, fun rs => ?_, fun t rs => ?_, fun t => ?_⟩ <;>
  · simp only [jobReducer]
    exact updateById_of_absent _ h

/-- Witness for c5_unknown_id_noop: scenario E of the spec, a JOB_ERROR for
a job never created leaves the initial store unchanged. -/
theorem c5_unknown_id_noop_witness :
    jobReducer initialJobState (AllActions.JOB_ERROR "j1" 150)
      = initialJobState :=
  (c5_unknown_id_noop initialJobState "j1" (by decide)).2.2.2 150

/-! Claim C6. -/

/-- C6: on a state containing a job with id j, JOB_ERROR sets that job to
running DONE, status ERROR, endTimestamp equal to the event timestamp, and
leaves every other field, in particular results, as it was. -/
theorem c6_job_error_effect (s : JobReducerState) (j : String) (t : Nat)
    (e : JobState) (h : getById s j = some e) :
    getById (jobReducer s (AllActions.JOB_ERROR j t)) j
      = some { e with running := JobRunning.DONE, status := JobStatus.ERROR,
                      endTimestamp := some t } :=
  getById_updateById_self _ h

/-- Witness for c6_job_error_effect on a job with nonempty results: the
results survive the JOB_ERROR transition. -/
theorem c6_job_error_effect_witness :
    getById (jobReducer (applyEvents initialJobState
        [AllActions.CREATE "j1" "d1" 100, AllActions.JOB_STARTED "j1" 105,
         AllActions.TASK_RESULT "j1" [1, 2]])
        (AllActions.JOB_ERROR "j1" 150)) "j1"
      = some { id := "j1", dataset := "d1", running := JobRunning.DONE,
               status := JobStatus.ERROR, results := [1, 2],
               startTimestamp := 105, endTimestamp := some 150 } :=
  c6_job_error_effect (applyEvents initialJobState
      [AllActions.CREATE "j1" "d1" 100, AllActions.JOB_STARTED "j1" 105,
       AllActions.TASK_RESULT "j1" [1, 2]]) "j1" 150
    { id := "j1", dataset := "d1", running := JobRunning.RUNNING,
      status := JobStatus.IN_PROGRESS, results := [1, 2],
      startTimestamp := 105, endTimestamp := none } (by decide)

/-! Claim C8. -/

/-- C8: CREATE on a state where the id is absent inserts a fresh job with
running CREATING, status CREATING, empty results, startTimestamp equal to
the event timestamp and no endTimestamp, and appends the id to ids. -/
theorem c8_create_inserts (s : JobReducerState) (i d : String) (t : Nat)
    (h : getById s i = none) :
    getById (jobReducer s (AllActions.CREATE i d t)) i
      = some { id := i, dataset := d, running := JobRunning.CREATING,
               status := JobStatus.CREATING, results := [],
               startTimestamp := t, endTimestamp := none }
    ∧ (jobReducer s (AllActions.CREATE i d t)).ids = s.ids ++ [i] := by
  constructor
  · exact getById_insertById_absent _ h
  · show (insertById s i _).ids = s.ids ++ [i]
    rw [insertById_of_absent _ h]

/-- Witness for c8_create_inserts: scenario A of the spec on the initial
empty store. -/
theorem c8_create_inserts_witness :
    getById (jobReducer initialJobState (AllActions.CREATE "j1" "d1" 100)) "j1"
      = some { id := "j1", dataset := "d1", running := JobRunning.CREATING,
               status := JobStatus.CREATING, results := [],
               startTimestamp := 100, endTimestamp := none }
    ∧ (jobReducer initialJobState (AllActions.CREATE "j1" "d1" 100)).ids
      = initialJobState.ids ++ ["j1"] :=
  c8_create_inserts initialJobState "j1" "d1" 100 (by decide)

/-! Frame lemmas: events not naming an id leave the entry for that id alone. -/

theorem frame_step (s : JobReducerState) (i : String) (a : AllActions)
    (h : namesId i a = false) : getById (jobReducer s a) i = getById s i := by
  cases a with
  | CREATE id d t =>
    have hb : (id == i) = false := h
    have hne : i ≠ id := Ne.symm (beq_eq_false_iff_ne.mp hb)
    simp only [jobReducer]
    exact getById_insertById_ne _ hne
  | JOB_STARTED j t =>
    have hb : (j == i) = false := h
    have hne : i ≠ j := Ne.symm (beq_eq_false_iff_ne.mp hb)
    simp only [jobReducer]
    exact getById_updateById_ne _ hne
  | TASK_RESULT j rs =>
    have hb : (j == i) = false := h
    have hne : i ≠ j := Ne.symm (beq_eq_false_iff_ne.mp hb)
    simp only [jobReducer]
    exact getById_updateById_ne _ hne
  | FINISH_JOB j t rs =>
    have hb : (j == i) = false := h
    have hne : i ≠ j := Ne.symm (beq_eq_false_iff_ne.mp hb)
    simp only [jobReducer]
    exact getById_updateById_ne _ hne
  | JOB_ERROR j t =>
    have hb : (j == i) = false := h
    have hne : i ≠ j := Ne.symm (beq_eq_false_iff_ne.mp hb)
    simp only [jobReducer]
    exact getById_updateById_ne _ hne
  | OTHER => rfl

theorem frame_applyEvents (i : String) :
    ∀ (events : List AllActions) (s : JobReducerState),
      (∀ a ∈ events, namesId i a = false) →
      getById (applyEvents s events) i = getById s i := by
  intro events
  induction events with
  | nil => intro s _; rfl
  | cons a rest ih =>
    intro s h
    rw [applyEvents_cons,
      ih _ (fun b hb => h b (List.mem_cons_of_mem _ hb)),
      frame_step s i a (h a (List.mem_cons_self _ _))]

/-! Claim C9. -/

/-- C9: after a CREATE for id X, any sequence of events none of which
names X (neither as a CREATE id nor as the job field of a lifecycle event)
leaves the entry stored at X exactly as it was after the CREATE. -/
theorem c9_untargeted_events_frame (s : JobReducerState) (i d : String)
    (t : Nat) (events : List AllActions)
    (h : ∀ a ∈ events, namesId i a = false) :
    getById (applyEvents (jobReducer s (AllActions.CREATE i d t)) events) i
      = getById (jobReducer s (AllActions.CREATE i d t)) i :=
  frame_applyEvents i events _ h

/-- Witness for c9_untargeted_events_frame: events for a second job j2 do
not touch the entry for j1. -/
theorem c9_untargeted_events_frame_witness :
    getById (applyEvents
        (jobReducer initialJobState (AllActions.CREATE "j1" "d1" 100))
        [AllActions.CREATE "j2" "d2" 110, AllActions.JOB_STARTED "j2" 120,
         AllActions.FINISH_JOB "j2" 130 [9]]) "j1"
      = getById (jobReducer initialJobState
          (AllActions.CREATE "j1" "d1" 100)) "j1" :=
  c9_untargeted_events_frame initialJobState "j1" "d1" 100
    [AllActions.CREATE "j2" "d2" 110, AllActions.JOB_STARTED "j2" 120,
     AllActions.FINISH_JOB "j2" 130 [9]] (by decide)

/-! Claim C7: endTimestamp over a job's event history. -/

theorem endTimestamp_none_step (i : String) (s : JobReducerState)
    (a : AllActions) (hna : isTerminalFor i a = false)
    (h : ∀ e, getById s i = some e → e.endTimestamp = none) :
    ∀ e', getById (jobReducer s a) i = some e' → e'.endTimestamp = none := by
  intro e' he'
  cases a with
  | CREATE id d t =>
    simp only [jobReducer] at he'
    by_cases hii : i = id
    · subst hii
      cases hpre : getById s i with
      | some q => rw [insertById_of_present _ hpre] at he'; exact h _ he'
      | none => rw [getById_insertById_absent _ hpre] at he'; cases he'; rfl
    · rw [getById_insertById_ne _ hii] at he'; exact h _ he'
  | JOB_STARTED j t =>
    simp only [jobReducer] at he'
    by_cases hij : i = j
    · subst hij
      cases hpre : getById s i with
      | none => rw [updateById_of_absent _ hpre] at he'; exact h _ he'
      | some q =>
        rw [getById_updateById_self _ hpre] at he'
        cases he'
        exact h q hpre
    · rw [getById_updateById_ne _ hij] at he'; exact h _ he'
  | TASK_RESULT j rs =>
    simp only [jobReducer] at he'
    by_cases hij : i = j
    · subst hij
      cases hpre : getById s i with
      | none => rw [updateById_of_absent _ hpre] at he'; exact h _ he'
      | some q =>
        rw [getById_updateById_self _ hpre] at he'
        cases he'
        exact h q hpre
    · rw [getById_updateById_ne _ hij] at he'; exact h _ he'
  | FINISH_JOB j t rs =>
    have hb : (j == i) = false := hna
    have hij : i ≠ j := Ne.symm (beq_eq_false_iff_ne.mp hb)
    simp only [jobReducer] at he'
    rw [getById_updateById_ne _ hij] at he'
    exact h _ he'
  | JOB_ERROR j t =>
    have hb : (j == i) = false := hna
    have hij : i ≠ j := Ne.symm (beq_eq_false_iff_ne.mp hb)
    simp only [jobReducer] at he'
    rw [getById_updateById_ne _ hij] at he'
    exact h _ he'
  | OTHER => exact h _ he'

theorem endTimestamp_frozen_step (s : JobReducerState) (i : String)
    (a : AllActions) (e e' : JobState) (hna : isTerminalFor i a = false)
    (he : getById s i = some e)
    (he' : getById (jobReducer s a) i = some e') :
    e'.endTimestamp = e.endTimestamp := by
  cases a with
  | CREATE id d t =>
    simp only [jobReducer] at he'
    by_cases hii : i = id
    · subst hii
      rw [insertById_of_present _ he, he] at he'
      cases he'
      rfl
    · rw [getById_insertById_ne _ hii, he] at he'
      cases he'
      rfl
  | JOB_STARTED j t =>
    simp only [jobReducer] at he'
    by_cases hij : i = j
    · subst hij
      rw [getById_updateById_self _ he] at he'
      cases he'
      rfl
    · rw [getById_updateById_ne _ hij, he] at he'
      cases he'
      rfl
  | TASK_RESULT j rs =>
    simp only [jobReducer] at he'
    by_cases hij : i = j
    · subst hij
      rw [getById_updateById_self _ he] at he'
      cases he'
      rfl
    · rw [getById_updateById_ne _ hij, he] at he'
      cases he'
      rfl
  | FINISH_JOB j t rs =>
    have hb : (j == i) = false := hna
    have hij : i ≠ j := Ne.symm (beq_eq_false_iff_ne.mp hb)
    simp only [jobReducer] at he'
    rw [getById_updateById_ne _ hij, he] at he'
    cases he'
    rfl
  | JOB_ERROR j t =>
    have hb : (j == i) = false := hna
    have hij : i ≠ j := Ne.symm (beq_eq_false_iff_ne.mp hb)
    simp only [jobReducer] at he'
    rw [getById_updateById_ne _ hij, he] at he'
    cases he'
    rfl
  | OTHER =>
    simp only [jobReducer] at he'
    rw [he] at he'
    cases he'
    rfl

/-- C7, counterexample: the claim that once endTimestamp is defined no
later event changes it fails on a reachable state. After CREATE and
JOB_ERROR (endTimestamp 150), a FINISH_JOB with timestamp 200 overwrites
endTimestamp to 200. -/
theorem c7_set_once_counterexample :
    ¬ (∀ (events : List AllActions) (i : String) (e : JobState)
        (a : AllActions) (e' : JobState),
        getById (applyEvents initialJobState events) i = some e →
        e.endTimestamp.isSome = true →
        getById (jobReducer (applyEvents initialJobState events) a) i = some e' →
        e'.endTimestamp = e.endTimestamp) := by
  intro hclaim
  have h2 := hclaim
      [AllActions.CREATE "j1" "d1" 100, AllActions.JOB_ERROR "j1" 150] "j1"
      { id := "j1", dataset := "d1", running := JobRunning.DONE,
        status := JobStatus.ERROR, results := [], startTimestamp := 100,
        endTimestamp := some 150 }
      (AllActions.FINISH_JOB "j1" 200 [])
      { id := "j1", dataset := "d1", running := JobRunning.DONE,
        status := JobStatus.SUCCESS, results := [], startTimestamp := 100,
        endTimestamp := some 200 }
      (by decide) (by decide) (by decide)
  exact absurd h2 (by decide)

/-- C7, amended: endTimestamp is absent before the first terminal event
(FINISH_JOB or JOB_ERROR) for the job, and only terminal events for the
job ever set or change it: any event that is not terminal for the job
leaves the endTimestamp of the stored job exactly as it was (a later
terminal event, however, does overwrite it). -/
theorem c7_endTimestamp_terminal_only :
    (∀ (i : String) (events : List AllActions),
        (∀ a ∈ events, isTerminalFor i a = false) →
        ∀ e, getById (applyEvents initialJobState events) i = some e →
          e.endTimestamp = none)
    ∧ (∀ (s : JobReducerState) (i : String) (a : AllActions)
        (e e' : JobState),
        isTerminalFor i a = false → getById s i = some e →
        getById (jobReducer s a) i = some e' →
        e'.endTimestamp = e.endTimestamp) := by
  constructor
  · intro i events
    suffices hgen : ∀ (evs : List AllActions) (s : JobReducerState),
        (∀ a ∈ evs, isTerminalFor i a = false) →
        (∀ e, getById s i = some e → e.endTimestamp = none) →
        ∀ e, getById (applyEvents s evs) i = some e → e.endTimestamp = none by
      intro hterm e he
      exact hgen events initialJobState hterm (fun e0 h0 => by cases h0) e he
    intro evs
    induction evs with
    | nil => intro s _ hbase; exact hbase
    | cons a rest ih =>
      intro s hterm hbase
      rw [applyEvents_cons]
      exact ih _ (fun b hb => hterm b (List.mem_cons_of_mem _ hb))
        (endTimestamp_none_step i s a (hterm a (List.mem_cons_self _ _)) hbase)
  · intro s i a e e' hna he he'
    exact endTimestamp_frozen_step s i a e e' hna he he'

/-- Witness for c7_endTimestamp_terminal_only: a job that has only seen
CREATE, JOB_STARTED and TASK_RESULT has no endTimestamp. -/
theorem c7_endTimestamp_terminal_only_witness :
    ({ id := "j1", dataset := "d1", running := JobRunning.RUNNING,
       status := JobStatus.IN_PROGRESS, results := [3], startTimestamp := 105,
       endTimestamp := none } : JobState).endTimestamp = none :=
  c7_endTimestamp_terminal_only.1 "j1"
    [AllActions.CREATE "j1" "d1" 100, AllActions.JOB_STARTED "j1" 105,
     AllActions.TASK_RESULT "j1" [3]] (by decide)
    { id := "j1", dataset := "d1", running := JobRunning.RUNNING,
      status := JobStatus.IN_PROGRESS, results := [3], startTimestamp := 105,
      endTimestamp := none } (by decide)

/-! Claim C10. -/

/-- C10: invoked without a prior state (none), the reducer behaves as if
given the initial empty store; in particular an unrecognized action
applied to the undefined state returns exactly the empty store. -/
theorem c10_default_state :
    (∀ a, jobReducerDefault none a = jobReducer initialJobState a)
    ∧ jobReducerDefault none AllActions.OTHER = initialJobState :=
  ⟨fun _ => rfl, rfl⟩
